import Mathlib

set_option linter.unusedVariables false
set_option maxRecDepth 40000

namespace Kor

/-- Modelled from the spec: the module kor/elements.py is imported by
kor/prompts.py but is not part of the provided sources.  Section 3 of the
spec describes an Option as carrying an `id`, a `description`, and an
ordered sequence of example strings. -/
structure Option where
  id : String
  description : String
  examples : List String
deriving DecidableEq, Repr

/-- Modelled from the spec: a Selection carries an `id`, a `description`,
an ordered sequence of Option, and a `multiple` flag. -/
structure Selection where
  id : String
  description : String
  options : List Option
  multiple : Bool
deriving DecidableEq, Repr

/-- Modelled from the spec: a DateInput carries an `id`, a `description`,
and examples as an ordered sequence of (raw-text, extracted-value) pairs. -/
structure DateInput where
  id : String
  description : String
  examples : List (String × String)
deriving DecidableEq, Repr

/-- Modelled from the spec: a Number input, same shape as DateInput. -/
structure Number where
  id : String
  description : String
  examples : List (String × String)
deriving DecidableEq, Repr

/-- Modelled from the spec: a TextInput, same shape as DateInput. -/
structure TextInput where
  id : String
  description : String
  examples : List (String × String)
deriving DecidableEq, Repr

/-- Modelled from the spec: a Form element is one of
Selection | DateInput | Number | TextInput (spec section 3). -/
inductive Element where
  | selection : Selection → Element
  | date : DateInput → Element
  | number : Number → Element
  | text : TextInput → Element
deriving DecidableEq, Repr

/-- Modelled from the spec: a Form carries a `description` and an ordered
sequence of elements. -/
structure Form where
  description : String
  elements : List Element
deriving DecidableEq, Repr

/-- Modelled from the spec: AbstractInput is the capability shared by all
schema nodes; its variants are Form, Selection, DateInput, Number,
TextInput and Option. -/
inductive AbstractInput where
  | form : Form → AbstractInput
  | selection : Selection → AbstractInput
  | date : DateInput → AbstractInput
  | number : Number → AbstractInput
  | text : TextInput → AbstractInput
  | option : Option → AbstractInput
deriving DecidableEq, Repr

/-- Modelled from the spec: `option_ids` on a Selection returns the ids of
its options in order (used by the form prompt, spec section 4 label table). -/
def Selection.option_ids (s : Selection) : List String :=
  s.options.map fun o => o.id

/-- Exceptions that the Python code can surface.  `raise NotImplemented()`
in the source first evaluates the call `NotImplemented()`; because Python
defines `NotImplemented` as a non-callable sentinel constant (it is not the
exception class `NotImplementedError`), that call itself raises
`TypeError: 'NotImplementedType' object is not callable`.  The embedding
therefore records a `typeError` for those branches. -/
inductive PyError where
  | typeError (msg : String)
  | assertionError
  | notImplementedError
deriving DecidableEq, Repr

/-- Shallow embedding of the Python `"sep".join(xs)`: empty for an empty
list, the single element alone, otherwise elements interleaved with the
separator. -/
def joinStr (sep : String) : List String → String
  | [] => ""
  | [a] => a
  | a :: b :: t => a ++ sep ++ joinStr sep (b :: t)

/-- Shallow embedding of the Python `str.strip()`: removes whitespace from
both ends of the string. -/
def strip (s : String) : String :=
  String.mk (((s.data.dropWhile Char.isWhitespace).reverse.dropWhile Char.isWhitespace).reverse)

/-- Substring containment, phrased on the character list of the string so
that concrete instances can be settled by `decide`. -/
def strContains (s pat : String) : Bool :=
  decide (pat.data <:+: s.data)

/-- Suffix test, phrased on the character list of the string so that
concrete instances can be settled by `decide`. -/
def strEndsWith (s suf : String) : Bool :=
  decide (suf.data <:+ s.data)

theorem strContains_iff {s pat : String} :
    strContains s pat = true ↔ ∃ a b : String, s = a ++ pat ++ b := by
  unfold strContains
  rw [decide_eq_true_iff]
  constructor
  · rintro ⟨x, y, h⟩
    refine ⟨String.mk x, String.mk y, String.ext ?_⟩
    simpa using h.symm
  · rintro ⟨a, b, rfl⟩
    exact ⟨a.data, b.data, by simp⟩

theorem strEndsWith_iff {s suf : String} :
    strEndsWith s suf = true ↔ ∃ a : String, s = a ++ suf := by
  unfold strEndsWith
  rw [decide_eq_true_iff]
  constructor
  · rintro ⟨x, h⟩
    refine ⟨String.mk x, String.ext ?_⟩
    simpa using h.symm
  · rintro ⟨a, rfl⟩
    exact ⟨a.data, by simp⟩

theorem strEndsWith_intro {s : String} (a suf : String) (h : s = a ++ suf) :
    strEndsWith s suf = true :=
  strEndsWith_iff.mpr ⟨a, h⟩

theorem strContains_self (s : String) : strContains s s = true :=
  strContains_iff.mpr ⟨"", "", by simp⟩

theorem strContains_append_right {s pat t : String} (h : strContains s pat = true) :
    strContains (s ++ t) pat = true := by
  rw [strContains_iff] at h ⊢
  obtain ⟨a, b, rfl⟩ := h
  exact ⟨a, b ++ t, by simp [String.append_assoc]⟩

theorem strContains_append_left {s pat t : String} (h : strContains t pat = true) :
    strContains (s ++ t) pat = true := by
  rw [strContains_iff] at h ⊢
  obtain ⟨a, b, rfl⟩ := h
  exact ⟨s ++ a, b, by simp [String.append_assoc]⟩

theorem strContains_trans {s t pat : String}
    (h1 : strContains s t = true) (h2 : strContains t pat = true) :
    strContains s pat = true := by
  rw [strContains_iff] at h1 h2 ⊢
  obtain ⟨a, b, rfl⟩ := h1
  obtain ⟨c, d, rfl⟩ := h2
  exact ⟨a ++ c, d ++ b, by simp [String.append_assoc]⟩

theorem joinStr_cons_of_ne {sep a : String} {t : List String} (h : t ≠ []) :
    joinStr sep (a :: t) = a ++ sep ++ joinStr sep t := by
  cases t with
  | nil => exact absurd rfl h
  | cons b t' => rfl

theorem joinStr_contains_mem {sep x : String} {l : List String} (h : x ∈ l) :
    strContains (joinStr sep l) x = true := by
  induction l with
  | nil => cases h
  | cons a t ih =>
    rcases List.mem_cons.mp h with rfl | hx
    · cases t with
      | nil => exact strContains_self x
      | cons b t' =>
        rw [joinStr_cons_of_ne (by simp)]
        exact strContains_append_right (strContains_append_right (strContains_self x))
    · have ht : t ≠ [] := by
        intro hnil
        rw [hnil] at hx
        cases hx
      rw [joinStr_cons_of_ne ht]
      exact strContains_append_left (ih hx)

theorem joinStr_pair {sep x y : String} (l₁ l₂ : List String) :
    strContains (joinStr sep (l₁ ++ x :: y :: l₂)) (x ++ sep ++ y) = true := by
  induction l₁ with
  | nil =>
    cases l₂ with
    | nil => exact strContains_self _
    | cons c t =>
      rw [List.nil_append, joinStr_cons_of_ne (by simp), joinStr_cons_of_ne (by simp)]
      exact strContains_iff.mpr ⟨"", sep ++ joinStr sep (c :: t), by simp [String.append_assoc]⟩
  | cons a t ih =>
    rw [List.cons_append, joinStr_cons_of_ne (by simp)]
    exact strContains_append_left ih

/-- Embeds `_compile_option_examples` from kor/prompts.py: for every example
string of the option, two lines are produced, `Input: {example}` and
`Output: <{id}>{option.id}</{id}>`, where `id` is the first argument (the
callers pass the enclosing selection id, not the option id).  The
`isinstance(option, Option)` TypeError guard of the source is unreachable
here because the argument is statically typed. -/
def compile_option_examples (id : String) (option : Option) : String :=
  joinStr "\n"
    ((option.examples.map fun ex =>
      ["Input: " ++ ex,
       "Output: <" ++ id ++ ">" ++ option.id ++ "</" ++ id ++ ">"]).flatten)

/-- Embeds `_compile_selection_examples` from kor/prompts.py.  The
`isinstance(selection, Selection)` AssertionError guard of the source is
unreachable here because the argument is statically typed. -/
def compile_selection_examples (selection : Selection) : String :=
  joinStr "\n"
    (selection.options.map fun option => compile_option_examples selection.id option)

/-- The fixed instructional preamble of `_generate_prompt_for_selection`
(the adjacent f-string literals of the source, concatenated). -/
def SELECTION_PREAMBLE : String :=
  "You are interacting with a user. The user has to choose one of options below. Please determine which of the options the user is selecting. The user may select one and only one option. For the output, output the option name without any whitespace, and nothing else. If you\x27re not sure, please output <unsure>. \n"

/-- Embeds `_generate_prompt_for_selection` from kor/prompts.py. -/
def generate_prompt_for_selection (user_input : String) (selection : Selection) : String :=
  SELECTION_PREAMBLE ++ "\n" ++ "Options:\n" ++
  joinStr "\n" (selection.options.map fun option => "<" ++ option.id ++ "> - " ++ option.description) ++
  "\n\n" ++ compile_selection_examples selection ++ "\n" ++
  "Input: " ++ user_input ++ "\n" ++ "Output:\n"

/-- The per-element entry of the `elements_info` list built by the loop in
`_generate_prompt_for_form` (kor/prompts.py). -/
def form_element_info (element : Element) : String :=
  match element with
  | .selection e =>
      "* <" ++ e.id ++ ">: " ++
      (if e.multiple then "Multiple Selection[" ++ joinStr "," e.option_ids ++ "]"
       else "Selection[" ++ joinStr "," e.option_ids ++ "]") ++
      " # " ++ e.description
  | .date e => "* <" ++ e.id ++ ">: Date # " ++ e.description
  | .number e => "* <" ++ e.id ++ ">: Number # " ++ e.description
  | .text e => "* <" ++ e.id ++ ">: Text # " ++ e.description

/-- The per-element entry of the `individual_examples` list built by the
loop in `_generate_prompt_for_form` (kor/prompts.py). -/
def form_element_examples (element : Element) : String :=
  match element with
  | .selection e => compile_selection_examples e
  | .date e =>
      joinStr "\n" (e.examples.map fun p =>
        "Input: " ++ p.1 ++ "\nOutput: <" ++ e.id ++ ">" ++ p.2 ++ "</" ++ e.id ++ ">")
  | .number e =>
      joinStr "\n" (e.examples.map fun p =>
        "Input: " ++ p.1 ++ "\nOutput: <" ++ e.id ++ ">" ++ p.2 ++ "</" ++ e.id ++ ">")
  | .text e =>
      joinStr "\n" (e.examples.map fun p =>
        "Input: " ++ p.1 ++ "\nOutput: <" ++ e.id ++ ">" ++ p.2 ++ "</" ++ e.id ++ ">")

/-- The fixed opening literal of `_generate_prompt_for_form`. -/
def FORM_PREAMBLE : String :=
  "You are helping a user fill out a form. The user will type information and your goal will be to parse the user\x27s input.\n"

/-- The fixed component-listing header literal of `_generate_prompt_for_form`. -/
def FORM_BELOW : String :=
  "Below is a list of the components showing the component ID, its type and a short description of it.\n\n"

/-- The fixed task-description literal of `_generate_prompt_for_form`
(the adjacent string literals of the source, concatenated). -/
def FORM_TASK : String :=
  "Your task is to parse the user input and determine to what values the user is attempting to set each component of the form. Please enclose the extracted information in HTML style tags with the tag name corresponding to the corresponding component ID. Use angle style brackets for the tags (\x27>\x27 and \x27<\x27). Only output tags when you\x27re confident about the information that was extracted from the user\x27s query. If you can extract several pieces of relevant information from the query include use a comma to separate the tags. If the component is a Multiple Selection, then please repeat the same tag multiple times once for each relevant selected option."

/-- Embeds `_generate_prompt_for_form` from kor/prompts.py.  The form
description is spliced between literal double quotes with no following
newline, exactly as in the source; the examples block is stripped of
surrounding whitespace; the prompt ends with `Output: ` (colon, space, no
newline).  The `raise NotImplemented()` fallback of the source loop is
unreachable here because `Element` statically covers exactly the four
supported kinds. -/
def generate_prompt_for_form (user_input : String) (form : Form) : String :=
  FORM_PREAMBLE ++
  "The description of the form is: \"" ++ form.description ++ "\"" ++ FORM_BELOW ++
  joinStr "\n" (form.elements.map form_element_info) ++ "\n\n" ++
  FORM_TASK ++ "\n\n" ++
  strip (joinStr "\n" (form.elements.map form_element_examples)) ++ "\n" ++
  "Input: " ++ user_input ++ "\n" ++ "Output: "

/-- Embeds `generate_prompt_for_input` from kor/prompts.py: Form and
Selection dispatch to their renderers; every other kind reaches
`raise NotImplemented()`, which in Python surfaces as
`TypeError: 'NotImplementedType' object is not callable` (see `PyError`). -/
def generate_prompt_for_input (user_input : String) (element : AbstractInput) :
    Except PyError String :=
  match element with
  | .form f => Except.ok (generate_prompt_for_form user_input f)
  | .selection s => Except.ok (generate_prompt_for_selection user_input s)
  | _ => Except.error (PyError.typeError "NotImplementedType object is not callable")

/-- The template text of `date_input_block` (kor/prompts.py).  The source
builds it from adjacent plain (non-f-string) literals, so the final
`Input: ` line keeps the literal brace-delimited user_input placeholder;
two adjacent literals also concatenate as `report itin` with no space,
exactly as in the source. -/
def DATE_INPUT_TEMPLATE : String :=
  "The input may or may not contain a date. If it contains a date, please  include it in the output inside of <date> and </date> tags, and report itin ISO-8601 format (YYYY-MM-DD). If it doesn\x27t contain a date, please output <null/>. Do not output anything else.\n\nInput: I went to the store on January 7th, 2023.\nOutput: <date>2023-01-07</date>\nInput: Next \nOutput: <date>2023-01-07</date>\nInput: \x7buser_input\x7d\nOutput: "

/-- Embeds `date_input_block` from kor/prompts.py.  The source assigns the
parenthesized literals with a trailing comma, so `prompt` is a one-element
tuple wrapping the template, not a string; the tuple is modelled as a
one-element list.  The user_input argument is never used. -/
def date_input_block (user_input : String) (date_input : DateInput) : List String :=
  [DATE_INPUT_TEMPLATE]

/-- The fixed instructional preamble of `date_block`, a character-for-
character repetition of the selection preamble in the source. -/
def DATE_BLOCK_PREAMBLE : String :=
  "You are interacting with a user. The user has to choose one of options below. Please determine which of the options the user is selecting. The user may select one and only one option. For the output, output the option name without any whitespace, and nothing else. If you\x27re not sure, please output <unsure>. \n"

/-- Embeds `date_block` from kor/prompts.py.  The example loop `break`s
after the first example of each option (options without examples
contribute nothing), its output lines are bare opening tags
`Output: <{option.id}>`, and the block opens with the fixed pair
`Input: blaheoiqwd` / `Output: <unsure>`. -/
def date_block (user_input : String) (options : List Option) : String :=
  DATE_BLOCK_PREAMBLE ++ "\n" ++ "Options:\n" ++
  joinStr "\n" (options.map fun option => "<" ++ option.id ++ "> - " ++ option.description) ++
  "\n\n" ++
  joinStr "\n" (["Input: blaheoiqwd", "Output: <unsure>"] ++
    (options.map fun option =>
      match option.examples with
      | [] => ([] : List String)
      | e :: _ => ["Input: " ++ e, "Output: <" ++ option.id ++ ">"]).flatten) ++
  "\n" ++ "Input: " ++ user_input ++ "\n" ++ "Output:\n"

/-- Embeds `generate_proceed_block` from kor/prompts.py.  Every literal of
the source template is a plain (non-f-string) literal, so the user_input
parameter is never substituted: the returned text keeps the literal
brace-delimited placeholder in its final `Input: ` line. -/
def generate_proceed_block (user_input : String) : String :=
  "You are interacting with a human and are trying to determine if the person is selecting to proceed (<yes/>) or cancel (<no/>). If you don\x27t know say <unsure/>\n\nInput: No, I need to make some changes\nOutput: <no/>\n\nInput: OK\nOutput: <yes/>\n\nInput: Yes\nOutput: <yes/>\n\nInput: hmmm\nOutput: <unsure/>\n\nInput: \x7buser_input\x7d\nOutput:\n"

/-- Claim C1, counterexample to the claim as stated: for the spec end-to-end
example Selection (id `yn`, option `yes` with example string `yes`), the
selection prompt does not contain the line `Output: <yes>yes</yes>` claimed
by the spec; it contains `Output: <yn>yes</yn>` instead, because the source
passes the selection id, not the option id, as the tag name. -/
theorem selection_example_pair_cex :
    strContains (generate_prompt_for_selection "yeah sure"
        ⟨"yn", "yes or no", [⟨"yes", "affirm", ["yes", "yeah"]⟩, ⟨"no", "deny", ["no"]⟩], false⟩)
      ("Input: yes" ++ "\n" ++ ("Output: <" ++ "yes" ++ ">" ++ "yes" ++ "</" ++ "yes" ++ ">")) = false ∧
    strContains (generate_prompt_for_selection "yeah sure"
        ⟨"yn", "yes or no", [⟨"yes", "affirm", ["yes", "yeah"]⟩, ⟨"no", "deny", ["no"]⟩], false⟩)
      ("Input: yes" ++ "\n" ++ ("Output: <" ++ "yn" ++ ">" ++ "yes" ++ "</" ++ "yn" ++ ">")) = true :=
  ⟨by decide, by decide⟩

/-- Claim C1, amended: for every Selection S, every option o of S and every
example string e of o, the selection prompt contains the line `Input: {e}`
followed on the next line by `Output: <{S.id}>{o.id}</{S.id}>`: the output
tag name is the enclosing selection id (repeated as the closing tag), and
it encloses the option id. -/
theorem selection_example_pair (u : String) (S : Selection) (o : Option) (e : String)
    (ho : o ∈ S.options) (he : e ∈ o.examples) :
    strContains (generate_prompt_for_selection u S)
      ("Input: " ++ e ++ "\n" ++ ("Output: <" ++ S.id ++ ">" ++ o.id ++ "</" ++ S.id ++ ">")) = true := by
  have h1 : strContains (compile_option_examples S.id o)
      ("Input: " ++ e ++ "\n" ++ ("Output: <" ++ S.id ++ ">" ++ o.id ++ "</" ++ S.id ++ ">")) = true := by
    obtain ⟨p, q, hpq⟩ := List.append_of_mem he
    unfold compile_option_examples
    rw [hpq, List.map_append, List.flatten_append, List.map_cons, List.flatten_cons]
    simp only [List.cons_append, List.nil_append]
    exact joinStr_pair _ _
  have h2 : strContains (compile_selection_examples S) (compile_option_examples S.id o) = true := by
    unfold compile_selection_examples
    exact joinStr_contains_mem (List.mem_map_of_mem _ ho)
  have h3 := strContains_trans h2 h1
  unfold generate_prompt_for_selection
  apply strContains_append_right
  apply strContains_append_right
  apply strContains_append_right
  apply strContains_append_right
  apply strContains_append_right
  apply strContains_append_left
  exact h3

/-- Witness for the amended claim C1 at the spec end-to-end example: the
option `yes` is an option of the `yn` selection, `yeah` is one of its
examples, and the prompt for user input `yeah sure` contains the pair
`Input: yeah` / `Output: <yn>yes</yn>`. -/
theorem selection_example_pair_witness :
    ((⟨"yes", "affirm", ["yes", "yeah"]⟩ : Option) ∈
      (⟨"yn", "yes or no", [⟨"yes", "affirm", ["yes", "yeah"]⟩, ⟨"no", "deny", ["no"]⟩], false⟩ : Selection).options) ∧
    ("yeah" ∈ (⟨"yes", "affirm", ["yes", "yeah"]⟩ : Option).examples) ∧
    strContains (generate_prompt_for_selection "yeah sure"
        ⟨"yn", "yes or no", [⟨"yes", "affirm", ["yes", "yeah"]⟩, ⟨"no", "deny", ["no"]⟩], false⟩)
      ("Input: " ++ "yeah" ++ "\n" ++ ("Output: <" ++ "yn" ++ ">" ++ "yes" ++ "</" ++ "yn" ++ ">")) = true :=
  ⟨by decide, by decide,
    selection_example_pair "yeah sure"
      ⟨"yn", "yes or no", [⟨"yes", "affirm", ["yes", "yeah"]⟩, ⟨"no", "deny", ["no"]⟩], false⟩
      ⟨"yes", "affirm", ["yes", "yeah"]⟩ "yeah" (by decide) (by decide)⟩

/-- Claim C2: dispatching `generate_prompt_for_input` on a DateInput (an
unsupported top-level kind) reaches the `raise NotImplemented()` branch.
Because `NotImplemented` is not callable in Python, the surfaced exception
is a TypeError, not the intended unsupported-kind NotImplementedError, so
what the caller observes is exactly a crash from an unrelated cause. -/
theorem generate_prompt_for_input_unsupported (u : String) (d : DateInput) :
    generate_prompt_for_input u (AbstractInput.date d) =
      Except.error (PyError.typeError "NotImplementedType object is not callable") := rfl

/-- Claim C3, counterexample to the claim as stated: the form prompt for
user input `hi` does not end with `Input: hi\nOutput:`; the source appends
`"Output: "` with a trailing space. -/
theorem form_prompt_tail_cex :
    strEndsWith (generate_prompt_for_form "hi" ⟨"d", []⟩)
      ("Input: hi" ++ "\n" ++ "Output:") = false ∧
    strEndsWith (generate_prompt_for_form "hi" ⟨"d", []⟩)
      ("Input: hi" ++ "\n" ++ "Output: ") = true :=
  ⟨by decide, by decide⟩

/-- Claim C3, amended: for every user input u and every Form F, the form
prompt ends with the literal substring `Input: {u}\nOutput: ` — the cue is
followed by a single trailing space and no trailing newline, and nothing
comes after that space. -/
theorem form_prompt_tail (u : String) (F : Form) :
    strEndsWith (generate_prompt_for_form u F) ("Input: " ++ u ++ "\n" ++ "Output: ") = true := by
  apply strEndsWith_intro (FORM_PREAMBLE ++ "The description of the form is: \"" ++
    F.description ++ "\"" ++ FORM_BELOW ++ joinStr "\n" (F.elements.map form_element_info) ++
    "\n\n" ++ FORM_TASK ++ "\n\n" ++
    strip (joinStr "\n" (F.elements.map form_element_examples)) ++ "\n")
  simp only [generate_prompt_for_form, String.append_assoc]

/-- Claim C4: evaluation of the code at the failing input `ok then`.  The
proceed block contains all four fixed example pairs verbatim, but it ends
with the literal placeholder line `Input: \x7buser_input\x7d` followed by
`Output:` and a newline, and the live user input `ok then` appears nowhere
in the output: the source template is built from plain (non-f-string)
literals, so the substitution the claim describes never happens. -/
theorem generate_proceed_block_unsubstituted :
    strEndsWith (generate_proceed_block "ok then")
      ("Input: \x7buser_input\x7d" ++ "\n" ++ "Output:\n") = true ∧
    strContains (generate_proceed_block "ok then") "ok then" = false ∧
    strContains (generate_proceed_block "ok then")
      ("Input: No, I need to make some changes" ++ "\n" ++ "Output: <no/>") = true ∧
    strContains (generate_proceed_block "ok then")
      ("Input: OK" ++ "\n" ++ "Output: <yes/>") = true ∧
    strContains (generate_proceed_block "ok then")
      ("Input: Yes" ++ "\n" ++ "Output: <yes/>") = true ∧
    strContains (generate_proceed_block "ok then")
      ("Input: hmmm" ++ "\n" ++ "Output: <unsure/>") = true :=
  ⟨by decide, by decide, by decide, by decide, by decide, by decide⟩

/-- Claim C6: for every user input u and every Selection S, the selection
prompt ends with exactly `Input: {u}\nOutput:\n` — a trailing newline after
the `Output:` cue. -/
theorem selection_prompt_tail (u : String) (S : Selection) :
    strEndsWith (generate_prompt_for_selection u S)
      ("Input: " ++ u ++ "\n" ++ "Output:\n") = true := by
  apply strEndsWith_intro (SELECTION_PREAMBLE ++ "\n" ++ "Options:\n" ++
    joinStr "\n" (S.options.map fun option => "<" ++ option.id ++ "> - " ++ option.description) ++
    "\n\n" ++ compile_selection_examples S ++ "\n")
  simp only [generate_prompt_for_selection, String.append_assoc]

/-- Claim C7: `date_input_block` ignores the live user input entirely — its
result is the same for any two inputs — and that result is a one-element
tuple (modelled as a one-element list) wrapping the fixed template text,
which still carries the literal brace-delimited user_input placeholder in
its final `Input: ` line. -/
theorem date_input_block_placeholder (u u' : String) (d d' : DateInput) :
    date_input_block u d = date_input_block u' d' ∧
    ∃ t, date_input_block u d = [t] ∧
      strContains t ("Input: \x7buser_input\x7d" ++ "\n" ++ "Output: ") = true :=
  ⟨rfl, DATE_INPUT_TEMPLATE, rfl, by decide⟩

/-- Claim C10: the selection prompt never reads the `multiple` flag — two
Selections differing only in `multiple` produce identical prompts — and the
prompt always carries the instruction that the user may select one and only
one option. -/
theorem selection_prompt_ignores_multiple (u i d : String) (opts : List Option) (m m' : Bool) :
    generate_prompt_for_selection u ⟨i, d, opts, m⟩ =
      generate_prompt_for_selection u ⟨i, d, opts, m'⟩ ∧
    strContains (generate_prompt_for_selection u ⟨i, d, opts, m⟩)
      "The user may select one and only one option." = true := by
  refine ⟨rfl, ?_⟩
  unfold generate_prompt_for_selection
  apply strContains_append_right
  apply strContains_append_right
  apply strContains_append_right
  apply strContains_append_right
  apply strContains_append_right
  apply strContains_append_right
  apply strContains_append_right
  apply strContains_append_right
  apply strContains_append_right
  apply strContains_append_right
  decide

/-- Claim C5: the form prompt embeds the field-listing block built from one
entry per form element, in order (so the number of entries equals the
number of elements); each entry has the exact shape
`* <{id}>: {label} # {description}` with the label determined by the
element kind per the spec label table, and a Selection with multiple=true
and options a, b is labeled exactly `Multiple Selection[a,b]`. -/
theorem form_field_lines (u : String) (F : Form) (s : Selection) (di : DateInput)
    (n : Number) (t : TextInput) :
    (∃ pre post, generate_prompt_for_form u F =
      pre ++ joinStr "\n" (F.elements.map form_element_info) ++ post) ∧
    (F.elements.map form_element_info).length = F.elements.length ∧
    form_element_info (Element.selection s) =
      "* <" ++ s.id ++ ">: " ++
        (if s.multiple then "Multiple Selection[" ++ joinStr "," (s.options.map fun o => o.id) ++ "]"
         else "Selection[" ++ joinStr "," (s.options.map fun o => o.id) ++ "]") ++
        " # " ++ s.description ∧
    form_element_info (Element.date di) = "* <" ++ di.id ++ ">: Date # " ++ di.description ∧
    form_element_info (Element.number n) = "* <" ++ n.id ++ ">: Number # " ++ n.description ∧
    form_element_info (Element.text t) = "* <" ++ t.id ++ ">: Text # " ++ t.description ∧
    form_element_info (Element.selection ⟨"sz", "shirt size", [⟨"a", "", []⟩, ⟨"b", "", []⟩], true⟩) =
      "* <sz>: Multiple Selection[a,b] # shirt size" := by
  refine ⟨⟨FORM_PREAMBLE ++ "The description of the form is: \"" ++ F.description ++ "\"" ++ FORM_BELOW,
    "\n\n" ++ FORM_TASK ++ "\n\n" ++
      strip (joinStr "\n" (F.elements.map form_element_examples)) ++ "\n" ++
      "Input: " ++ u ++ "\n" ++ "Output: ", ?_⟩, by simp, rfl, rfl, rfl, rfl, by decide⟩
  simp only [generate_prompt_for_form, String.append_assoc]

/-- Claim C8, counterexample to the claim as stated: with a single option
`yes` whose first example is `yeah`, the date block does not pair
`Input: yeah` with a Selection-Prompt-style closed tag (neither
`Output: <yes>yes</yes>` nor any closing tag at all appears: the prompt
contains no `</`); instead the pair is `Input: yeah` / `Output: <yes>`, a
bare opening tag, and the second example `Yes` of the option is dropped. -/
theorem date_block_cex :
    strContains (date_block "hi" [⟨"yes", "affirm", ["yeah", "Yes"]⟩])
      ("Input: yeah" ++ "\n" ++ ("Output: <" ++ "yes" ++ ">" ++ "yes" ++ "</" ++ "yes" ++ ">")) = false ∧
    strContains (date_block "hi" [⟨"yes", "affirm", ["yeah", "Yes"]⟩]) "</" = false ∧
    strContains (date_block "hi" [⟨"yes", "affirm", ["yeah", "Yes"]⟩])
      ("Input: yeah" ++ "\n" ++ "Output: <yes>") = true ∧
    strContains (date_block "hi" [⟨"yes", "affirm", ["yeah", "Yes"]⟩]) "Input: Yes" = false ∧
    strContains (date_block "hi" [⟨"yes", "affirm", ["yeah", "Yes"]⟩])
      ("Input: blaheoiqwd" ++ "\n" ++ "Output: <unsure>") = true :=
  ⟨by decide, by decide, by decide, by decide, by decide⟩

/-- Claim C8, amended: the date block shares the Selection Prompt structure
up to the examples block — identical preamble, `Options:` header,
option-listing block and closing `Input: {u}` / `Output:` cue with trailing
newline — but its examples block opens with the fixed pair
`Input: blaheoiqwd` / `Output: <unsure>` and then emits, for the first
example only of each option (nothing for an option without examples), the
pair `Input: {example}` / `Output: <{option.id}>` with a bare unclosed
opening tag instead of the Selection Prompt closed-tag form. -/
theorem date_block_structure (u i d : String) (m : Bool) (opts : List Option) :
    ∃ P, generate_prompt_for_selection u ⟨i, d, opts, m⟩ =
        P ++ joinStr "\n" (opts.map fun option => "<" ++ option.id ++ "> - " ++ option.description) ++
        "\n\n" ++ compile_selection_examples ⟨i, d, opts, m⟩ ++ "\n" ++
        "Input: " ++ u ++ "\n" ++ "Output:\n" ∧
      date_block u opts =
        P ++ joinStr "\n" (opts.map fun option => "<" ++ option.id ++ "> - " ++ option.description) ++
        "\n\n" ++
        joinStr "\n" (["Input: blaheoiqwd", "Output: <unsure>"] ++
          (opts.map fun option =>
            match option.examples with
            | [] => ([] : List String)
            | e :: _ => ["Input: " ++ e, "Output: <" ++ option.id ++ ">"]).flatten) ++
        "\n" ++ "Input: " ++ u ++ "\n" ++ "Output:\n" := by
  refine ⟨SELECTION_PREAMBLE ++ "\n" ++ "Options:\n", ?_, ?_⟩
  · simp only [generate_prompt_for_selection, String.append_assoc]
  · simp only [date_block, DATE_BLOCK_PREAMBLE, SELECTION_PREAMBLE, String.append_assoc]

theorem joinStr_data_all_nl {l : List String} (h : l.all (fun x => x == "") = true) :
    (joinStr "\n" l).data.all (fun c => c == '\n') = true := by
  induction l with
  | nil => rfl
  | cons a t ih =>
    rw [List.all_cons, Bool.and_eq_true] at h
    obtain ⟨ha, ht⟩ := h
    have ha' : a = "" := by simpa using ha
    subst ha'
    cases t with
    | nil => rfl
    | cons b t' =>
      rw [joinStr_cons_of_ne (by simp)]
      have hj := ih ht
      simp only [String.data_append, List.all_append, Bool.and_eq_true]
      exact ⟨⟨by decide, by decide⟩, hj⟩

/-- Claim C9: a Selection with an empty options sequence still yields the
complete prompt frame, with empty options and examples blocks between the
fixed parts; and a Form whose elements all render empty example blocks
still yields a complete prompt ending in the newline-separated
`Input: {u}` / `Output: ` cue, the joined examples material consisting of
newline characters only (so the stripped examples block is empty).  No
error path exists: both renderers are total functions. -/
theorem empty_schema_prompts (u i d : String) (m : Bool) (F : Form)
    (h : (F.elements.map form_element_examples).all (fun x => x == "") = true) :
    generate_prompt_for_selection u ⟨i, d, [], m⟩ =
      SELECTION_PREAMBLE ++ "\n" ++ "Options:\n" ++ "\n\n" ++ "\n" ++
        "Input: " ++ u ++ "\n" ++ "Output:\n" ∧
    strEndsWith (generate_prompt_for_form u F)
      ("\n" ++ "Input: " ++ u ++ "\n" ++ "Output: ") = true ∧
    (joinStr "\n" (F.elements.map form_element_examples)).data.all (fun c => c == '\n') = true := by
  refine ⟨?_, ?_, joinStr_data_all_nl h⟩
  · simp only [generate_prompt_for_selection, compile_selection_examples, List.map_nil,
      joinStr, String.append_assoc, String.empty_append]
  · apply strEndsWith_intro (FORM_PREAMBLE ++ "The description of the form is: \"" ++
      F.description ++ "\"" ++ FORM_BELOW ++ joinStr "\n" (F.elements.map form_element_info) ++
      "\n\n" ++ FORM_TASK ++ "\n\n" ++
      strip (joinStr "\n" (F.elements.map form_element_examples)))
    simp only [generate_prompt_for_form, String.append_assoc]

/-- Witness for claim C9 at a concrete schema: a form with a TextInput and
a DateInput that both have no examples satisfies the hypothesis, and the
conclusion holds for it with user input `hello`. -/
theorem empty_schema_prompts_witness :
    (((⟨"contact", [Element.text ⟨"name", "full name", []⟩,
        Element.date ⟨"when", "the date", []⟩]⟩ : Form).elements.map
          form_element_examples).all (fun x => x == "") = true) ∧
    (generate_prompt_for_selection "hello" ⟨"s", "sd", [], false⟩ =
      SELECTION_PREAMBLE ++ "\n" ++ "Options:\n" ++ "\n\n" ++ "\n" ++
        "Input: " ++ "hello" ++ "\n" ++ "Output:\n" ∧
     strEndsWith (generate_prompt_for_form "hello"
        ⟨"contact", [Element.text ⟨"name", "full name", []⟩,
          Element.date ⟨"when", "the date", []⟩]⟩)
      ("\n" ++ "Input: " ++ "hello" ++ "\n" ++ "Output: ") = true ∧
     (joinStr "\n" ((⟨"contact", [Element.text ⟨"name", "full name", []⟩,
        Element.date ⟨"when", "the date", []⟩]⟩ : Form).elements.map
          form_element_examples)).data.all (fun c => c == '\n') = true) :=
  ⟨by decide,
    empty_schema_prompts "hello" "s" "sd" false
      ⟨"contact", [Element.text ⟨"name", "full name", []⟩,
        Element.date ⟨"when", "the date", []⟩]⟩ (by decide)⟩

end Kor
